import Mathlib

/-!
Verification of the scrummage process-priority library.

The development shallowly embeds the two platform variants of the crate:

* `Unix` models `src/unix.rs`: `Priority` wraps a C `int` niceness value,
  `higher`/`lower` are the `core::iter::from_fn` walks rendered as the finite
  lists they lazily produce, and the syscall-facing methods are rendered as
  pure classification functions of the values the OS returns (the syscall
  return value and the thread-local `errno`), since the syscalls themselves
  are oracles outside the program.
* `Windows` models `src/windows.rs`: `Priority` wraps a `DWORD` priority
  class, `to_relative` is partial (the `unreachable!` arm becomes `none`),
  and `set_priority`/`priority` are classification functions of the values
  returned by `SetPriorityClass`/`GetPriorityClass`/`GetLastError`.

Panicking paths (`unreachable!`, `todo!`) are modelled by a dedicated
`fatal` outcome: the Rust code aborts instead of returning a value there.

The public `Priority`/`Process` types in `src/lib.rs` are single-field
wrappers whose derived `PartialEq`/`Eq`/`PartialOrd`/`Ord` delegate to the
platform type, so the per-platform definitions below are exactly the public
behaviour on each platform.

Note on naming: `src/unix.rs` still refers to the error enum as
`Error` with variant `NotAllowed`; `src/lib.rs` declares it as `Unchanged`
with variant `PermissionDenied`.  We use the `lib.rs` names throughout and
identify `NotAllowed` with `PermissionDenied`.
-/

namespace Scrummage

/-- The `NotFound` unit error type of `src/lib.rs`. -/
structure NotFound where
deriving DecidableEq, Repr

/-- The `Unchanged` error enum of `src/lib.rs`. -/
inductive Unchanged where
  | NotFound (n : Scrummage.NotFound)
  | PermissionDenied
deriving DecidableEq, Repr

/-- Outcome of a `set_priority` call: a typed `Result`, or a panic/abort of
the process (`unreachable!` / `todo!` in the source). -/
inductive SetOutcome where
  | ok
  | unchanged (e : Unchanged)
  | fatal
deriving DecidableEq, Repr

namespace Unix

/-- The `Priority` struct of `src/unix.rs`: a wrapped niceness value
(`libc::c_int`; the arithmetic in the source never overflows `i32` because
every step is guarded, so `Int` is a faithful carrier). -/
structure Priority where
  niceness : Int
deriving DecidableEq, Repr

/-- The list of values lazily produced by the `from_fn` iterator inside
`Priority::higher` in `src/unix.rs`, starting from captured state `n`:
while `niceness > -20`, decrement and yield. -/
def higherFrom (n : Int) : List Priority :=
  if h : n > -20 then ⟨n - 1⟩ :: higherFrom (n - 1) else []
termination_by (n + 20).toNat
decreasing_by
  omega

/-- The list of values lazily produced by the `from_fn` iterator inside
`Priority::lower` in `src/unix.rs`: while `niceness < 19`, increment and
yield. -/
def lowerFrom (n : Int) : List Priority :=
  if h : n < 19 then ⟨n + 1⟩ :: lowerFrom (n + 1) else []
termination_by (19 - n).toNat
decreasing_by
  omega

/-- `Priority::higher` of `src/unix.rs`, as the finite sequence the
returned iterator produces. -/
def Priority.higher (p : Priority) : List Priority :=
  higherFrom p.niceness

/-- `Priority::normal` of `src/unix.rs`: niceness `0`. -/
def Priority.normal : Priority :=
  ⟨0⟩

/-- `Priority::lower` of `src/unix.rs`, as the finite sequence the
returned iterator produces. -/
def Priority.lower (p : Priority) : List Priority :=
  lowerFrom p.niceness

/-- The comparison on `Priority` that Rust's `derive(PartialOrd, Ord)` in
`src/unix.rs` produces: field-by-field, i.e. comparison of the raw niceness
values. This is also the public ordering, since `src/lib.rs` wraps the
platform type in a single-field tuple struct with derived `Ord`. -/
def cmp (p q : Priority) : Ordering :=
  compare p.niceness q.niceness

/-- `libc::ESRCH` (no such process) on Linux. -/
def ESRCH : Int := 3

/-- `libc::EACCES` (permission denied) on Linux. -/
def EACCES : Int := 13

/-- `libc::EPERM` (operation not permitted) on Linux. -/
def EPERM : Int := 1

/-- The `Process` struct of `src/unix.rs` (the `PhantomData` borrow marker
has no runtime content). -/
structure Process where
  pid : Nat
deriving DecidableEq, Repr

/-- `Process::set_priority` of `src/unix.rs`, as a classification of the
values the OS hands back: `ret` is the return value of
`setpriority(PRIO_PROCESS, pid, niceness)` and `errnoVal` the thread-local
`errno` after the call. Zero return is `Ok(())`; otherwise `ESRCH` maps to
`Unchanged::NotFound`, `EACCES` and `EPERM` map to `PermissionDenied`, and
anything else hits `unexpected_err`, which is `unreachable!` (abort). -/
def setPriority (ret : Int) (errnoVal : Int) : SetOutcome :=
  if ret = 0 then
    .ok
  else if errnoVal = ESRCH then
    .unchanged (.NotFound ⟨⟩)
  else if errnoVal = EACCES ∨ errnoVal = EPERM then
    .unchanged .PermissionDenied
  else
    .fatal

/-- Outcome of the `Process::priority` read path. -/
inductive ReadOutcome where
  | ok (p : Priority)
  | notFound
  | fatal
deriving DecidableEq, Repr

/-- The observable behaviour of one `getpriority` call: the value it
returns, and the `errno` value it writes, if it writes one. -/
structure GetPriorityCall where
  ret : Int
  errnoWrite : Option Int
deriving DecidableEq, Repr

/-- `Process::priority` of `src/unix.rs`. The source first stores `0` into
the thread-local `errno` (so the pre-call value `errnoPre` is dead), then
calls `getpriority`, then matches the resulting `errno`: `0` means the
returned niceness is valid (even when it is `-1` or `-20`), `ESRCH` means
`NotFound`, and anything else hits `unexpected_err` (abort). -/
def priorityRead (errnoPre : Int) (call : GetPriorityCall) : ReadOutcome :=
  let errnoCleared : Int := 0
  let errnoAfter := call.errnoWrite.getD errnoCleared
  let niceness := call.ret
  if errnoAfter = 0 then
    .ok ⟨niceness⟩
  else if errnoAfter = ESRCH then
    .notFound
  else
    .fatal

end Unix

namespace Windows

/-- `winapi::um::winbase::IDLE_PRIORITY_CLASS`. -/
def IDLE_PRIORITY_CLASS : Nat := 0x40

/-- `winapi::um::winbase::BELOW_NORMAL_PRIORITY_CLASS`. -/
def BELOW_NORMAL_PRIORITY_CLASS : Nat := 0x4000

/-- `winapi::um::winbase::NORMAL_PRIORITY_CLASS`. -/
def NORMAL_PRIORITY_CLASS : Nat := 0x20

/-- `winapi::um::winbase::ABOVE_NORMAL_PRIORITY_CLASS`. -/
def ABOVE_NORMAL_PRIORITY_CLASS : Nat := 0x8000

/-- `winapi::um::winbase::HIGH_PRIORITY_CLASS`. -/
def HIGH_PRIORITY_CLASS : Nat := 0x80

/-- `winapi::um::winbase::REALTIME_PRIORITY_CLASS`. -/
def REALTIME_PRIORITY_CLASS : Nat := 0x100

/-- `winapi::um::winbase::PROCESS_MODE_BACKGROUND_BEGIN`. -/
def PROCESS_MODE_BACKGROUND_BEGIN : Nat := 0x00100000

/-- `winapi::um::winbase::PROCESS_MODE_BACKGROUND_END`. -/
def PROCESS_MODE_BACKGROUND_END : Nat := 0x00200000

/-- The `Priority` struct of `src/windows.rs`: a wrapped `DWORD` priority
class value. -/
structure Priority where
  priority : Nat
deriving DecidableEq, Repr

/-- `Priority::to_relative` of `src/windows.rs`. The `match` maps the six
ordinary classes to positions `0..=5`, maps both background-mode markers to
the position of `NORMAL_PRIORITY_CLASS` (the source uses an or-pattern),
and hits `unreachable!` on anything else, modelled as `none`. -/
def to_relative (p : Priority) : Option Nat :=
  if p.priority = IDLE_PRIORITY_CLASS then some 0
  else if p.priority = BELOW_NORMAL_PRIORITY_CLASS then some 1
  else if p.priority = NORMAL_PRIORITY_CLASS ∨
          p.priority = PROCESS_MODE_BACKGROUND_BEGIN ∨
          p.priority = PROCESS_MODE_BACKGROUND_END then some 2
  else if p.priority = ABOVE_NORMAL_PRIORITY_CLASS then some 3
  else if p.priority = HIGH_PRIORITY_CLASS then some 4
  else if p.priority = REALTIME_PRIORITY_CLASS then some 5
  else none

/-- A `Priority` is valid when `to_relative` does not panic on it: one of
the six ordinary classes or the two background-mode markers. -/
def Valid (p : Priority) : Prop :=
  (to_relative p).isSome

instance (p : Priority) : Decidable (Valid p) := by
  unfold Valid
  infer_instance

/-- The `Ord::cmp` implementation of `src/windows.rs`:
`self.to_relative().cmp(&other.to_relative())` — partial in the model
because `to_relative` panics on undefined class values. This is also the
public ordering on this platform. -/
def cmp (p q : Priority) : Option Ordering :=
  match to_relative p, to_relative q with
  | some a, some b => some (compare a b)
  | _, _ => none

/-- The step taken by the `from_fn` iterator inside `Priority::higher` of
`src/windows.rs`: the `match priority` block yielding the next-more-favored
class, or `None` at `REALTIME_PRIORITY_CLASS` and on every value outside
the five listed classes (background markers included). -/
def higherNext (n : Nat) : Option Nat :=
  if n = IDLE_PRIORITY_CLASS then some BELOW_NORMAL_PRIORITY_CLASS
  else if n = BELOW_NORMAL_PRIORITY_CLASS then some NORMAL_PRIORITY_CLASS
  else if n = NORMAL_PRIORITY_CLASS then some ABOVE_NORMAL_PRIORITY_CLASS
  else if n = ABOVE_NORMAL_PRIORITY_CLASS then some HIGH_PRIORITY_CLASS
  else if n = HIGH_PRIORITY_CLASS then some REALTIME_PRIORITY_CLASS
  else none

/-- The step taken by the `from_fn` iterator inside `Priority::lower` of
`src/windows.rs`. -/
def lowerNext (n : Nat) : Option Nat :=
  if n = BELOW_NORMAL_PRIORITY_CLASS then some IDLE_PRIORITY_CLASS
  else if n = NORMAL_PRIORITY_CLASS then some BELOW_NORMAL_PRIORITY_CLASS
  else if n = ABOVE_NORMAL_PRIORITY_CLASS then some NORMAL_PRIORITY_CLASS
  else if n = HIGH_PRIORITY_CLASS then some ABOVE_NORMAL_PRIORITY_CLASS
  else if n = REALTIME_PRIORITY_CLASS then some HIGH_PRIORITY_CLASS
  else none

/-- Termination measure for the `higher` walk: distance to the top of the
class ladder. -/
def rankUp (n : Nat) : Nat :=
  if n = IDLE_PRIORITY_CLASS then 5
  else if n = BELOW_NORMAL_PRIORITY_CLASS then 4
  else if n = NORMAL_PRIORITY_CLASS then 3
  else if n = ABOVE_NORMAL_PRIORITY_CLASS then 2
  else if n = HIGH_PRIORITY_CLASS then 1
  else 0

/-- Termination measure for the `lower` walk: distance to the bottom of
the class ladder. -/
def rankDown (n : Nat) : Nat :=
  if n = REALTIME_PRIORITY_CLASS then 5
  else if n = HIGH_PRIORITY_CLASS then 4
  else if n = ABOVE_NORMAL_PRIORITY_CLASS then 3
  else if n = NORMAL_PRIORITY_CLASS then 2
  else if n = BELOW_NORMAL_PRIORITY_CLASS then 1
  else 0

/-- The list of values lazily produced by the `Priority::higher` iterator
of `src/windows.rs` from captured state `n`: repeatedly step to the next
class and yield it, stopping when the `match` yields `None`. -/
def higherFrom (n : Nat) : List Priority :=
  match h : higherNext n with
  | some m => ⟨m⟩ :: higherFrom m
  | none => []
termination_by rankUp n
decreasing_by
  unfold higherNext at h
  repeat' split at h
  any_goals exact Option.noConfusion h
  all_goals injection h with hm
  all_goals subst hm
  all_goals simp_all [rankUp, IDLE_PRIORITY_CLASS, BELOW_NORMAL_PRIORITY_CLASS,
    NORMAL_PRIORITY_CLASS, ABOVE_NORMAL_PRIORITY_CLASS, HIGH_PRIORITY_CLASS,
    REALTIME_PRIORITY_CLASS]

/-- The list of values lazily produced by the `Priority::lower` iterator
of `src/windows.rs` from captured state `n`. -/
def lowerFrom (n : Nat) : List Priority :=
  match h : lowerNext n with
  | some m => ⟨m⟩ :: lowerFrom m
  | none => []
termination_by rankDown n
decreasing_by
  unfold lowerNext at h
  repeat' split at h
  any_goals exact Option.noConfusion h
  all_goals injection h with hm
  all_goals subst hm
  all_goals simp_all [rankDown, IDLE_PRIORITY_CLASS, BELOW_NORMAL_PRIORITY_CLASS,
    NORMAL_PRIORITY_CLASS, ABOVE_NORMAL_PRIORITY_CLASS, HIGH_PRIORITY_CLASS,
    REALTIME_PRIORITY_CLASS]

/-- `Priority::higher` of `src/windows.rs`, as the finite sequence the
returned iterator produces. -/
def Priority.higher (p : Priority) : List Priority :=
  higherFrom p.priority

/-- `Priority::normal` of `src/windows.rs`. -/
def Priority.normal : Priority :=
  ⟨NORMAL_PRIORITY_CLASS⟩

/-- `Priority::lower` of `src/windows.rs`, as the finite sequence the
returned iterator produces. -/
def Priority.lower (p : Priority) : List Priority :=
  lowerFrom p.priority

/-- The `Process` struct of `src/windows.rs`: a raw `HANDLE` value. -/
structure Process where
  handle : Nat
deriving DecidableEq, Repr

/-- `Process::set_priority` of `src/windows.rs`, as a classification of
the OS responses: `ret` is the return value of `SetPriorityClass` and
`lastError` the value `GetLastError` would report. On a zero (failure)
return the source matches the last error with a single catch-all arm whose
body is `todo!`, so every failure panics; the `lastError` value is read
but never distinguishes outcomes. A nonzero return is `Ok(())`. -/
def setPriority (ret : Nat) (lastError : Nat) : SetOutcome :=
  if ret = 0 then
    .fatal
  else
    .ok

/-- `Process::priority` of `src/windows.rs`: `GetPriorityClass` returning
the sentinel `0` maps to `Err(NotFound)`; any other returned value is
wrapped as a `Priority` unchecked. -/
def priorityRead (ret : Nat) : Except Scrummage.NotFound Priority :=
  if ret = 0 then
    .error ⟨⟩
  else
    .ok ⟨ret⟩

end Windows

/-- A stand-in for `std::process::Child` as the `From` conversions see it:
an OS process id (what `Child::id` returns), a raw OS handle (what
`Child::as_raw_handle` returns), and the aliveness of the underlying OS
process — which the conversions have no way to observe. -/
structure Child where
  id : Nat
  rawHandle : Nat
  alive : Bool
deriving DecidableEq, Repr

/-- The `From<&mut std::process::Child>` impl of `src/unix.rs`: copy the
child's id into the `pid` field; no syscall, no fallibility. -/
def Unix.fromChild (c : Child) : Unix.Process :=
  ⟨c.id⟩

/-- The `From<&mut std::process::Child>` impl of `src/windows.rs`: copy
the child's raw handle; no syscall, no fallibility. -/
def Windows.fromChild (c : Child) : Windows.Process :=
  ⟨c.rawHandle⟩

end Scrummage

/-! ## Basic lemmas about the unix walks -/

namespace Scrummage

namespace Unix

theorem higherFrom_eq_cons {n : Int} (h : n > -20) :
    higherFrom n = ⟨n - 1⟩ :: higherFrom (n - 1) := by
  rw [higherFrom, dif_pos h]

theorem higherFrom_eq_nil {n : Int} (h : ¬ n > -20) :
    higherFrom n = [] := by
  rw [higherFrom, dif_neg h]

theorem lowerFrom_eq_cons {n : Int} (h : n < 19) :
    lowerFrom n = ⟨n + 1⟩ :: lowerFrom (n + 1) := by
  rw [lowerFrom, dif_pos h]

theorem lowerFrom_eq_nil {n : Int} (h : ¬ n < 19) :
    lowerFrom n = [] := by
  rw [lowerFrom, dif_neg h]

/-- Characterisation of the unix `higher` walk: it produces exactly the
niceness values strictly between the bound `-20` (inclusive) and the start
(exclusive). -/
theorem mem_higherFrom {q : Priority} {n : Int} :
    q ∈ higherFrom n ↔ -20 ≤ q.niceness ∧ q.niceness < n := by
  obtain ⟨k, hk⟩ : ∃ k, (n + 20).toNat = k := ⟨_, rfl⟩
  induction k generalizing n with
  | zero =>
    rw [higherFrom_eq_nil (by omega)]
    simp only [List.not_mem_nil, false_iff]
    omega
  | succ k ih =>
    have hgt : n > -20 := by omega
    rw [higherFrom_eq_cons hgt]
    simp only [List.mem_cons]
    rw [ih (by omega)]
    obtain ⟨m⟩ := q
    simp only [Priority.mk.injEq]
    omega

/-- Characterisation of the unix `lower` walk. -/
theorem mem_lowerFrom {q : Priority} {n : Int} :
    q ∈ lowerFrom n ↔ n < q.niceness ∧ q.niceness ≤ 19 := by
  obtain ⟨k, hk⟩ : ∃ k, (19 - n).toNat = k := ⟨_, rfl⟩
  induction k generalizing n with
  | zero =>
    rw [lowerFrom_eq_nil (by omega)]
    simp only [List.not_mem_nil, false_iff]
    omega
  | succ k ih =>
    have hlt : n < 19 := by omega
    rw [lowerFrom_eq_cons hlt]
    simp only [List.mem_cons]
    rw [ih (by omega)]
    obtain ⟨m⟩ := q
    simp only [Priority.mk.injEq]
    omega

/-- The full `higher` walk from `normal()`: niceness `-1` down to `-20`. -/
theorem higherFrom_zero :
    higherFrom 0 = [⟨-1⟩, ⟨-2⟩, ⟨-3⟩, ⟨-4⟩, ⟨-5⟩, ⟨-6⟩, ⟨-7⟩, ⟨-8⟩, ⟨-9⟩, ⟨-10⟩,
      ⟨-11⟩, ⟨-12⟩, ⟨-13⟩, ⟨-14⟩, ⟨-15⟩, ⟨-16⟩, ⟨-17⟩, ⟨-18⟩, ⟨-19⟩, ⟨-20⟩] := by
  simp [higherFrom]

/-- The full `lower` walk from `normal()`: niceness `1` up to `19`. -/
theorem lowerFrom_zero :
    lowerFrom 0 = [⟨1⟩, ⟨2⟩, ⟨3⟩, ⟨4⟩, ⟨5⟩, ⟨6⟩, ⟨7⟩, ⟨8⟩, ⟨9⟩, ⟨10⟩,
      ⟨11⟩, ⟨12⟩, ⟨13⟩, ⟨14⟩, ⟨15⟩, ⟨16⟩, ⟨17⟩, ⟨18⟩, ⟨19⟩] := by
  simp [lowerFrom]

/-- One `higher`/`lower` step in the sense of the spec's reachability
property: `q` is some element of `p.higher()` or of `p.lower()`. -/
def Step (p q : Priority) : Prop :=
  q ∈ p.higher ∨ q ∈ p.lower

/-- Reachability by a finite sequence of `higher`/`lower` steps. -/
def Reaches : Priority → Priority → Prop :=
  Relation.ReflTransGen Step

end Unix

/-! ## Basic lemmas about the windows walks -/

namespace Windows

/-- The six ordinary priority classes, in favoredness order. The two
background-mode markers are deliberately not in this list. -/
def ordinaryClasses : List Nat :=
  [IDLE_PRIORITY_CLASS, BELOW_NORMAL_PRIORITY_CLASS, NORMAL_PRIORITY_CLASS,
   ABOVE_NORMAL_PRIORITY_CLASS, HIGH_PRIORITY_CLASS, REALTIME_PRIORITY_CLASS]

theorem higherFrom_eq_consW {n m : Nat} (h : higherNext n = some m) :
    higherFrom n = ⟨m⟩ :: higherFrom m := by
  rw [higherFrom, h]

theorem higherFrom_eq_nilW {n : Nat} (h : higherNext n = none) :
    higherFrom n = [] := by
  rw [higherFrom, h]

theorem lowerFrom_eq_consW {n m : Nat} (h : lowerNext n = some m) :
    lowerFrom n = ⟨m⟩ :: lowerFrom m := by
  rw [lowerFrom, h]

theorem lowerFrom_eq_nilW {n : Nat} (h : lowerNext n = none) :
    lowerFrom n = [] := by
  rw [lowerFrom, h]

theorem higherFrom_idle :
    higherFrom IDLE_PRIORITY_CLASS =
      [⟨BELOW_NORMAL_PRIORITY_CLASS⟩, ⟨NORMAL_PRIORITY_CLASS⟩,
       ⟨ABOVE_NORMAL_PRIORITY_CLASS⟩, ⟨HIGH_PRIORITY_CLASS⟩,
       ⟨REALTIME_PRIORITY_CLASS⟩] := by
  simp [higherFrom, higherNext, IDLE_PRIORITY_CLASS, BELOW_NORMAL_PRIORITY_CLASS,
    NORMAL_PRIORITY_CLASS, ABOVE_NORMAL_PRIORITY_CLASS, HIGH_PRIORITY_CLASS,
    REALTIME_PRIORITY_CLASS]

theorem higherFrom_below :
    higherFrom BELOW_NORMAL_PRIORITY_CLASS =
      [⟨NORMAL_PRIORITY_CLASS⟩, ⟨ABOVE_NORMAL_PRIORITY_CLASS⟩,
       ⟨HIGH_PRIORITY_CLASS⟩, ⟨REALTIME_PRIORITY_CLASS⟩] := by
  simp [higherFrom, higherNext, IDLE_PRIORITY_CLASS, BELOW_NORMAL_PRIORITY_CLASS,
    NORMAL_PRIORITY_CLASS, ABOVE_NORMAL_PRIORITY_CLASS, HIGH_PRIORITY_CLASS,
    REALTIME_PRIORITY_CLASS]

theorem higherFrom_normal :
    higherFrom NORMAL_PRIORITY_CLASS =
      [⟨ABOVE_NORMAL_PRIORITY_CLASS⟩, ⟨HIGH_PRIORITY_CLASS⟩,
       ⟨REALTIME_PRIORITY_CLASS⟩] := by
  simp [higherFrom, higherNext, IDLE_PRIORITY_CLASS, BELOW_NORMAL_PRIORITY_CLASS,
    NORMAL_PRIORITY_CLASS, ABOVE_NORMAL_PRIORITY_CLASS, HIGH_PRIORITY_CLASS,
    REALTIME_PRIORITY_CLASS]

theorem higherFrom_above :
    higherFrom ABOVE_NORMAL_PRIORITY_CLASS =
      [⟨HIGH_PRIORITY_CLASS⟩, ⟨REALTIME_PRIORITY_CLASS⟩] := by
  simp [higherFrom, higherNext, IDLE_PRIORITY_CLASS, BELOW_NORMAL_PRIORITY_CLASS,
    NORMAL_PRIORITY_CLASS, ABOVE_NORMAL_PRIORITY_CLASS, HIGH_PRIORITY_CLASS,
    REALTIME_PRIORITY_CLASS]

theorem higherFrom_high :
    higherFrom HIGH_PRIORITY_CLASS = [⟨REALTIME_PRIORITY_CLASS⟩] := by
  simp [higherFrom, higherNext, IDLE_PRIORITY_CLASS, BELOW_NORMAL_PRIORITY_CLASS,
    NORMAL_PRIORITY_CLASS, ABOVE_NORMAL_PRIORITY_CLASS, HIGH_PRIORITY_CLASS,
    REALTIME_PRIORITY_CLASS]

theorem higherFrom_realtime :
    higherFrom REALTIME_PRIORITY_CLASS = [] := by
  simp [higherFrom, higherNext, IDLE_PRIORITY_CLASS, BELOW_NORMAL_PRIORITY_CLASS,
    NORMAL_PRIORITY_CLASS, ABOVE_NORMAL_PRIORITY_CLASS, HIGH_PRIORITY_CLASS,
    REALTIME_PRIORITY_CLASS]

theorem higherFrom_bg_begin :
    higherFrom PROCESS_MODE_BACKGROUND_BEGIN = [] := by
  simp [higherFrom, higherNext, IDLE_PRIORITY_CLASS, BELOW_NORMAL_PRIORITY_CLASS,
    NORMAL_PRIORITY_CLASS, ABOVE_NORMAL_PRIORITY_CLASS, HIGH_PRIORITY_CLASS,
    REALTIME_PRIORITY_CLASS, PROCESS_MODE_BACKGROUND_BEGIN]

theorem higherFrom_bg_end :
    higherFrom PROCESS_MODE_BACKGROUND_END = [] := by
  simp [higherFrom, higherNext, IDLE_PRIORITY_CLASS, BELOW_NORMAL_PRIORITY_CLASS,
    NORMAL_PRIORITY_CLASS, ABOVE_NORMAL_PRIORITY_CLASS, HIGH_PRIORITY_CLASS,
    REALTIME_PRIORITY_CLASS, PROCESS_MODE_BACKGROUND_END]

theorem lowerFrom_realtime :
    lowerFrom REALTIME_PRIORITY_CLASS =
      [⟨HIGH_PRIORITY_CLASS⟩, ⟨ABOVE_NORMAL_PRIORITY_CLASS⟩,
       ⟨NORMAL_PRIORITY_CLASS⟩, ⟨BELOW_NORMAL_PRIORITY_CLASS⟩,
       ⟨IDLE_PRIORITY_CLASS⟩] := by
  simp [lowerFrom, lowerNext, IDLE_PRIORITY_CLASS, BELOW_NORMAL_PRIORITY_CLASS,
    NORMAL_PRIORITY_CLASS, ABOVE_NORMAL_PRIORITY_CLASS, HIGH_PRIORITY_CLASS,
    REALTIME_PRIORITY_CLASS]

theorem lowerFrom_high :
    lowerFrom HIGH_PRIORITY_CLASS =
      [⟨ABOVE_NORMAL_PRIORITY_CLASS⟩, ⟨NORMAL_PRIORITY_CLASS⟩,
       ⟨BELOW_NORMAL_PRIORITY_CLASS⟩, ⟨IDLE_PRIORITY_CLASS⟩] := by
  simp [lowerFrom, lowerNext, IDLE_PRIORITY_CLASS, BELOW_NORMAL_PRIORITY_CLASS,
    NORMAL_PRIORITY_CLASS, ABOVE_NORMAL_PRIORITY_CLASS, HIGH_PRIORITY_CLASS,
    REALTIME_PRIORITY_CLASS]

theorem lowerFrom_above :
    lowerFrom ABOVE_NORMAL_PRIORITY_CLASS =
      [⟨NORMAL_PRIORITY_CLASS⟩, ⟨BELOW_NORMAL_PRIORITY_CLASS⟩,
       ⟨IDLE_PRIORITY_CLASS⟩] := by
  simp [lowerFrom, lowerNext, IDLE_PRIORITY_CLASS, BELOW_NORMAL_PRIORITY_CLASS,
    NORMAL_PRIORITY_CLASS, ABOVE_NORMAL_PRIORITY_CLASS, HIGH_PRIORITY_CLASS,
    REALTIME_PRIORITY_CLASS]

theorem lowerFrom_normal :
    lowerFrom NORMAL_PRIORITY_CLASS =
      [⟨BELOW_NORMAL_PRIORITY_CLASS⟩, ⟨IDLE_PRIORITY_CLASS⟩] := by
  simp [lowerFrom, lowerNext, IDLE_PRIORITY_CLASS, BELOW_NORMAL_PRIORITY_CLASS,
    NORMAL_PRIORITY_CLASS, ABOVE_NORMAL_PRIORITY_CLASS, HIGH_PRIORITY_CLASS,
    REALTIME_PRIORITY_CLASS]

theorem lowerFrom_below :
    lowerFrom BELOW_NORMAL_PRIORITY_CLASS = [⟨IDLE_PRIORITY_CLASS⟩] := by
  simp [lowerFrom, lowerNext, IDLE_PRIORITY_CLASS, BELOW_NORMAL_PRIORITY_CLASS,
    NORMAL_PRIORITY_CLASS, ABOVE_NORMAL_PRIORITY_CLASS, HIGH_PRIORITY_CLASS,
    REALTIME_PRIORITY_CLASS]

theorem lowerFrom_idle :
    lowerFrom IDLE_PRIORITY_CLASS = [] := by
  simp [lowerFrom, lowerNext, IDLE_PRIORITY_CLASS, BELOW_NORMAL_PRIORITY_CLASS,
    NORMAL_PRIORITY_CLASS, ABOVE_NORMAL_PRIORITY_CLASS, HIGH_PRIORITY_CLASS,
    REALTIME_PRIORITY_CLASS]

theorem lowerFrom_bg_begin :
    lowerFrom PROCESS_MODE_BACKGROUND_BEGIN = [] := by
  simp [lowerFrom, lowerNext, IDLE_PRIORITY_CLASS, BELOW_NORMAL_PRIORITY_CLASS,
    NORMAL_PRIORITY_CLASS, ABOVE_NORMAL_PRIORITY_CLASS, HIGH_PRIORITY_CLASS,
    REALTIME_PRIORITY_CLASS, PROCESS_MODE_BACKGROUND_BEGIN]

theorem lowerFrom_bg_end :
    lowerFrom PROCESS_MODE_BACKGROUND_END = [] := by
  simp [lowerFrom, lowerNext, IDLE_PRIORITY_CLASS, BELOW_NORMAL_PRIORITY_CLASS,
    NORMAL_PRIORITY_CLASS, ABOVE_NORMAL_PRIORITY_CLASS, HIGH_PRIORITY_CLASS,
    REALTIME_PRIORITY_CLASS, PROCESS_MODE_BACKGROUND_END]

/-- Every element the windows `higher` walk ever yields is one of the six
ordinary classes, whatever the start value (background markers and
undefined values yield nothing at all). -/
theorem mem_higherFromW {q : Priority} {n : Nat} (hq : q ∈ higherFrom n) :
    q.priority ∈ ordinaryClasses := by
  by_cases h0 : n = IDLE_PRIORITY_CLASS
  · subst h0; rw [higherFrom_idle] at hq
    fin_cases hq <;> simp [ordinaryClasses]
  by_cases h1 : n = BELOW_NORMAL_PRIORITY_CLASS
  · subst h1; rw [higherFrom_below] at hq
    fin_cases hq <;> simp [ordinaryClasses]
  by_cases h2 : n = NORMAL_PRIORITY_CLASS
  · subst h2; rw [higherFrom_normal] at hq
    fin_cases hq <;> simp [ordinaryClasses]
  by_cases h3 : n = ABOVE_NORMAL_PRIORITY_CLASS
  · subst h3; rw [higherFrom_above] at hq
    fin_cases hq <;> simp [ordinaryClasses]
  by_cases h4 : n = HIGH_PRIORITY_CLASS
  · subst h4; rw [higherFrom_high] at hq
    fin_cases hq <;> simp [ordinaryClasses]
  · rw [higherFrom_eq_nilW (by simp [higherNext, h0, h1, h2, h3, h4])] at hq
    simp at hq

/-- Every element the windows `lower` walk ever yields is one of the six
ordinary classes. -/
theorem mem_lowerFromW {q : Priority} {n : Nat} (hq : q ∈ lowerFrom n) :
    q.priority ∈ ordinaryClasses := by
  by_cases h0 : n = REALTIME_PRIORITY_CLASS
  · subst h0; rw [lowerFrom_realtime] at hq
    fin_cases hq <;> simp [ordinaryClasses]
  by_cases h1 : n = HIGH_PRIORITY_CLASS
  · subst h1; rw [lowerFrom_high] at hq
    fin_cases hq <;> simp [ordinaryClasses]
  by_cases h2 : n = ABOVE_NORMAL_PRIORITY_CLASS
  · subst h2; rw [lowerFrom_above] at hq
    fin_cases hq <;> simp [ordinaryClasses]
  by_cases h3 : n = NORMAL_PRIORITY_CLASS
  · subst h3; rw [lowerFrom_normal] at hq
    fin_cases hq <;> simp [ordinaryClasses]
  by_cases h4 : n = BELOW_NORMAL_PRIORITY_CLASS
  · subst h4; rw [lowerFrom_below] at hq
    fin_cases hq <;> simp [ordinaryClasses]
  · rw [lowerFrom_eq_nilW (by simp [lowerNext, h0, h1, h2, h3, h4])] at hq
    simp at hq

/-- One `higher`/`lower` step on the windows platform. -/
def Step (p q : Priority) : Prop :=
  q ∈ p.higher ∨ q ∈ p.lower

/-- Reachability by a finite sequence of `higher`/`lower` steps. -/
def Reaches : Priority → Priority → Prop :=
  Relation.ReflTransGen Step

end Windows

end Scrummage

/-! ## Step-level round-trip lemmas for the windows walks -/

namespace Scrummage

namespace Windows

theorem lowerNext_higherNext {n m : Nat} (h : higherNext n = some m) :
    lowerNext m = some n := by
  unfold higherNext at h
  repeat' split at h
  any_goals exact Option.noConfusion h
  all_goals injection h with hm
  all_goals subst hm
  all_goals simp_all [lowerNext, IDLE_PRIORITY_CLASS, BELOW_NORMAL_PRIORITY_CLASS,
    NORMAL_PRIORITY_CLASS, ABOVE_NORMAL_PRIORITY_CLASS, HIGH_PRIORITY_CLASS,
    REALTIME_PRIORITY_CLASS]

theorem higherNext_lowerNext {n m : Nat} (h : lowerNext n = some m) :
    higherNext m = some n := by
  unfold lowerNext at h
  repeat' split at h
  any_goals exact Option.noConfusion h
  all_goals injection h with hm
  all_goals subst hm
  all_goals simp_all [higherNext, IDLE_PRIORITY_CLASS, BELOW_NORMAL_PRIORITY_CLASS,
    NORMAL_PRIORITY_CLASS, ABOVE_NORMAL_PRIORITY_CLASS, HIGH_PRIORITY_CLASS,
    REALTIME_PRIORITY_CLASS]

theorem higherFrom_head {n m : Nat} (h : higherNext n = some m) :
    (higherFrom n).head? = some ⟨m⟩ := by
  rw [higherFrom_eq_consW h, List.head?_cons]

theorem lowerFrom_head {n m : Nat} (h : lowerNext n = some m) :
    (lowerFrom n).head? = some ⟨m⟩ := by
  rw [lowerFrom_eq_consW h, List.head?_cons]

end Windows

/-! ## The claims -/

/-- C1: the claim that every `higher()` sequence is strictly increasing in
the public `Priority` ordering (and `lower()` strictly decreasing) fails
on the unix variant. `src/unix.rs` derives `PartialOrd`/`Ord` on the raw
niceness field without inverting it, although more-negative niceness means
more-favored scheduling, so the first element of
`Priority::normal().higher()` — niceness `-1` — compares strictly *less*
than `normal()`, and the first element of `normal().lower()` compares
strictly *greater*. This theorem evaluates the code at that failing
input. -/
theorem c1_unix_derived_order_inverts_walks :
    Unix.Priority.normal.higher.head? = some ⟨-1⟩ ∧
    Unix.cmp ⟨-1⟩ Unix.Priority.normal = Ordering.lt ∧
    Unix.Priority.normal.lower.head? = some ⟨1⟩ ∧
    Unix.cmp ⟨1⟩ Unix.Priority.normal = Ordering.gt := by
  refine ⟨?_, by decide, ?_, by decide⟩
  · rw [show Unix.Priority.normal.higher = Unix.higherFrom 0 from rfl,
      Unix.higherFrom_zero]
    decide
  · rw [show Unix.Priority.normal.lower = Unix.lowerFrom 0 from rfl,
      Unix.lowerFrom_zero]
    decide

/-- C2 counterexample: on the priority-class platform every failing
`SetPriorityClass` call runs into the `todo!` placeholder and panics,
instead of returning the typed error the claim requires. Instantiated at a
zero (failure) return with last-error value `5` (`ERROR_ACCESS_DENIED`,
the permission-denied condition) and `6` (`ERROR_INVALID_HANDLE`, the
process-gone condition). -/
theorem c2_windows_set_failure_panics :
    Windows.setPriority 0 5 = SetOutcome.fatal ∧
    Windows.setPriority 0 5 ≠ SetOutcome.unchanged Unchanged.PermissionDenied ∧
    Windows.setPriority 0 6 = SetOutcome.fatal ∧
    Windows.setPriority 0 6 ≠ SetOutcome.unchanged (Unchanged.NotFound ⟨⟩) := by
  decide

/-- C2 (amended): on the niceness platform `set_priority` returns `Ok(())`
when the OS accepts the change (zero return), `Unchanged::NotFound` when
the process is gone (`ESRCH`), and `Unchanged::PermissionDenied` when the
caller lacks rights (`EACCES` or `EPERM`), without panicking on those
conditions; on the priority-class platform it returns `Ok(())` when the OS
accepts, but panics on every failure (the error arm is an unimplemented
placeholder), whatever the last-error code says. -/
theorem c2_set_priority_per_platform (ret errnoVal : Int) (wret lastError : Nat) :
    (ret = 0 → Unix.setPriority ret errnoVal = SetOutcome.ok) ∧
    (ret ≠ 0 → errnoVal = Unix.ESRCH →
      Unix.setPriority ret errnoVal = SetOutcome.unchanged (Unchanged.NotFound ⟨⟩)) ∧
    (ret ≠ 0 → errnoVal = Unix.EACCES ∨ errnoVal = Unix.EPERM →
      Unix.setPriority ret errnoVal = SetOutcome.unchanged Unchanged.PermissionDenied) ∧
    (wret ≠ 0 → Windows.setPriority wret lastError = SetOutcome.ok) ∧
    (wret = 0 → Windows.setPriority wret lastError = SetOutcome.fatal) := by
  refine ⟨?_, ?_, ?_, ?_, ?_⟩
  · intro h; simp [Unix.setPriority, h]
  · intro h h2; simp [Unix.setPriority, h, h2]
  · intro h h2
    rcases h2 with rfl | rfl <;>
      simp [Unix.setPriority, h, Unix.ESRCH, Unix.EACCES, Unix.EPERM]
  · intro h; simp [Windows.setPriority, h]
  · intro h; simp [Windows.setPriority, h]

theorem c2_set_priority_per_platform_witness :
    Unix.setPriority 0 0 = SetOutcome.ok ∧
    Unix.setPriority (-1) Unix.ESRCH = SetOutcome.unchanged (Unchanged.NotFound ⟨⟩) ∧
    Unix.setPriority (-1) Unix.EPERM = SetOutcome.unchanged Unchanged.PermissionDenied ∧
    Windows.setPriority 1 0 = SetOutcome.ok ∧
    Windows.setPriority 0 6 = SetOutcome.fatal :=
  ⟨(c2_set_priority_per_platform 0 0 1 0).1 rfl,
   (c2_set_priority_per_platform (-1) Unix.ESRCH 1 0).2.1 (by decide) rfl,
   (c2_set_priority_per_platform (-1) Unix.EPERM 1 0).2.2.1 (by decide) (Or.inr rfl),
   (c2_set_priority_per_platform 0 0 1 0).2.2.2.1 (by decide),
   (c2_set_priority_per_platform 0 0 0 6).2.2.2.2 rfl⟩

/-- C3 counterexample: on the priority-class platform the background-mode
marker `PROCESS_MODE_BACKGROUND_BEGIN` and `NORMAL_PRIORITY_CLASS` map to
the same relative level, so `cmp` yields `Equal` on them while `==`
(derived on the raw class value) does not hold: equality and ordering
disagree, refuting the claimed equivalence. -/
theorem c3_background_marker_eq_ord_disagree :
    Windows.cmp ⟨Windows.NORMAL_PRIORITY_CLASS⟩ ⟨Windows.PROCESS_MODE_BACKGROUND_BEGIN⟩
      = some Ordering.eq ∧
    (⟨Windows.NORMAL_PRIORITY_CLASS⟩ : Windows.Priority)
      ≠ ⟨Windows.PROCESS_MODE_BACKGROUND_BEGIN⟩ := by
  decide

/-- C3 (amended): two `Priority` values are `==` iff they carry the same
native level, and comparison yields `Equal` iff the two values have the
same relative position; on the six ordinary classes (and everywhere on the
niceness platform) `==` coincides with comparing `Equal`, but a
background-mode marker compares `Equal` to `normal` without being `==` to
it. -/
theorem c3_eq_ord_consistency (p q : Windows.Priority) (u v : Unix.Priority) :
    (p = q ↔ p.priority = q.priority) ∧
    (p.priority ∈ Windows.ordinaryClasses → q.priority ∈ Windows.ordinaryClasses →
      (p = q ↔ Windows.cmp p q = some Ordering.eq)) ∧
    (Windows.Valid p → Windows.Valid q →
      (Windows.cmp p q = some Ordering.eq ↔ Windows.to_relative p = Windows.to_relative q)) ∧
    (u = v ↔ Unix.cmp u v = Ordering.eq) ∧
    (u = v ↔ u.niceness = v.niceness) := by
  refine ⟨?_, ?_, ?_, ?_, ?_⟩
  · obtain ⟨a⟩ := p; obtain ⟨b⟩ := q
    simp
  · intro hp hq
    obtain ⟨a⟩ := p; obtain ⟨b⟩ := q
    fin_cases hp <;> fin_cases hq <;> decide
  · intro hp hq
    obtain ⟨a, ha⟩ := Option.isSome_iff_exists.mp hp
    obtain ⟨b, hb⟩ := Option.isSome_iff_exists.mp hq
    rw [Windows.cmp, ha, hb]
    simp [compare_eq_iff_eq]
  · obtain ⟨a⟩ := u; obtain ⟨b⟩ := v
    simp [Unix.cmp, compare_eq_iff_eq]
  · obtain ⟨a⟩ := u; obtain ⟨b⟩ := v
    simp

theorem c3_eq_ord_consistency_witness :
    ((⟨Windows.HIGH_PRIORITY_CLASS⟩ : Windows.Priority) = ⟨Windows.HIGH_PRIORITY_CLASS⟩ ↔
      Windows.cmp ⟨Windows.HIGH_PRIORITY_CLASS⟩ ⟨Windows.HIGH_PRIORITY_CLASS⟩
        = some Ordering.eq) ∧
    (Windows.cmp ⟨Windows.IDLE_PRIORITY_CLASS⟩ ⟨Windows.NORMAL_PRIORITY_CLASS⟩
        = some Ordering.eq ↔
      Windows.to_relative ⟨Windows.IDLE_PRIORITY_CLASS⟩
        = Windows.to_relative ⟨Windows.NORMAL_PRIORITY_CLASS⟩) :=
  ⟨(c3_eq_ord_consistency ⟨Windows.HIGH_PRIORITY_CLASS⟩ ⟨Windows.HIGH_PRIORITY_CLASS⟩
      ⟨0⟩ ⟨0⟩).2.1 (by decide) (by decide),
   (c3_eq_ord_consistency ⟨Windows.IDLE_PRIORITY_CLASS⟩ ⟨Windows.NORMAL_PRIORITY_CLASS⟩
      ⟨0⟩ ⟨0⟩).2.2.1 (by decide) (by decide)⟩

/-- C5: on the niceness platform `set_priority` returns `Ok(())` exactly
when `setpriority` returns zero; on a nonzero return `ESRCH` maps to
`Unchanged::NotFound`, each of `EACCES` and `EPERM` maps to
`PermissionDenied`, and every other `errno` value aborts
(`unexpected_err` is `unreachable!`) instead of being returned as a typed
error. -/
theorem c5_unix_set_classification (ret errnoVal : Int) :
    (Unix.setPriority ret errnoVal = SetOutcome.ok ↔ ret = 0) ∧
    (ret ≠ 0 → errnoVal = Unix.ESRCH →
      Unix.setPriority ret errnoVal = SetOutcome.unchanged (Unchanged.NotFound ⟨⟩)) ∧
    (ret ≠ 0 → errnoVal = Unix.EACCES ∨ errnoVal = Unix.EPERM →
      Unix.setPriority ret errnoVal = SetOutcome.unchanged Unchanged.PermissionDenied) ∧
    (ret ≠ 0 → errnoVal ≠ Unix.ESRCH → errnoVal ≠ Unix.EACCES → errnoVal ≠ Unix.EPERM →
      Unix.setPriority ret errnoVal = SetOutcome.fatal) := by
  refine ⟨?_, ?_, ?_, ?_⟩
  · by_cases h : ret = 0
    · simp [Unix.setPriority, h]
    · by_cases h2 : errnoVal = Unix.ESRCH <;>
        by_cases h3 : errnoVal = Unix.EACCES ∨ errnoVal = Unix.EPERM <;>
        simp [Unix.setPriority, h, h2, h3]
  · intro h h2; simp [Unix.setPriority, h, h2]
  · intro h h2
    rcases h2 with rfl | rfl <;>
      simp [Unix.setPriority, h, Unix.ESRCH, Unix.EACCES, Unix.EPERM]
  · intro h h2 h3 h4
    simp [Unix.setPriority, h, h2, h3, h4]

theorem c5_unix_set_classification_witness :
    (Unix.setPriority 0 0 = SetOutcome.ok ↔ (0 : Int) = 0) ∧
    Unix.setPriority (-1) Unix.ESRCH = SetOutcome.unchanged (Unchanged.NotFound ⟨⟩) ∧
    Unix.setPriority (-1) Unix.EACCES = SetOutcome.unchanged Unchanged.PermissionDenied ∧
    Unix.setPriority (-1) 22 = SetOutcome.fatal :=
  ⟨(c5_unix_set_classification 0 0).1,
   (c5_unix_set_classification (-1) Unix.ESRCH).2.1 (by decide) rfl,
   (c5_unix_set_classification (-1) Unix.EACCES).2.2.1 (by decide) (Or.inl rfl),
   (c5_unix_set_classification (-1) 22).2.2.2 (by decide) (by decide) (by decide) (by decide)⟩

/-- C6: on the niceness platform the read path stores `0` into the
thread-local `errno` before calling `getpriority` (so the outcome is
independent of whatever `errno` held before) and inspects it right after:
a zero post-call indicator yields `Ok` with the returned niceness — even
when that value is an error-sentinel-looking one such as `-1` — the
`ESRCH` indicator yields `Err(NotFound)`, and any other indicator aborts
(`unexpected_err` is `unreachable!`). -/
theorem c6_unix_read_classification (pre1 pre2 : Int) (call : Unix.GetPriorityCall) :
    Unix.priorityRead pre1 call = Unix.priorityRead pre2 call ∧
    (call.errnoWrite.getD 0 = 0 →
      Unix.priorityRead pre1 call = Unix.ReadOutcome.ok ⟨call.ret⟩) ∧
    (call.errnoWrite.getD 0 = Unix.ESRCH →
      Unix.priorityRead pre1 call = Unix.ReadOutcome.notFound) ∧
    (call.errnoWrite.getD 0 ≠ 0 → call.errnoWrite.getD 0 ≠ Unix.ESRCH →
      Unix.priorityRead pre1 call = Unix.ReadOutcome.fatal) := by
  refine ⟨rfl, ?_, ?_, ?_⟩
  · intro h; simp [Unix.priorityRead, h]
  · intro h
    simp only [Unix.ESRCH] at h
    simp [Unix.priorityRead, h, Unix.ESRCH]
  · intro h h2; simp [Unix.priorityRead, h, h2]

theorem c6_unix_read_classification_witness :
    Unix.priorityRead 7 ⟨-1, none⟩ = Unix.ReadOutcome.ok ⟨-1⟩ ∧
    Unix.priorityRead 7 ⟨-20, some 0⟩ = Unix.ReadOutcome.ok ⟨-20⟩ ∧
    Unix.priorityRead 7 ⟨-1, some Unix.ESRCH⟩ = Unix.ReadOutcome.notFound ∧
    Unix.priorityRead 7 ⟨-1, some 22⟩ = Unix.ReadOutcome.fatal :=
  ⟨(c6_unix_read_classification 7 0 ⟨-1, none⟩).2.1 (by decide),
   (c6_unix_read_classification 7 0 ⟨-20, some 0⟩).2.1 (by decide),
   (c6_unix_read_classification 7 0 ⟨-1, some Unix.ESRCH⟩).2.2.1 (by decide),
   (c6_unix_read_classification 7 0 ⟨-1, some 22⟩).2.2.2 (by decide) (by decide)⟩

/-- C10: building a `Process` from an externally-owned child is the plain
`From` conversion on both platforms: it always succeeds, performs no OS
call, and only copies the child's identifier (unix) or raw handle
(windows) — in particular the result is the same whether or not the
underlying OS process is still alive. Nonexistence is only reported later:
the read path maps `ESRCH` (unix) or a zero `GetPriorityClass` return
(windows) to `NotFound`, and the unix write path maps `ESRCH` to
`Unchanged::NotFound`. -/
theorem c10_from_child_is_pure (c : Child) (pre ret : Int) :
    Unix.fromChild c = ⟨c.id⟩ ∧
    Windows.fromChild c = ⟨c.rawHandle⟩ ∧
    Unix.fromChild c = Unix.fromChild ⟨c.id, c.rawHandle, true⟩ ∧
    Unix.fromChild c = Unix.fromChild ⟨c.id, c.rawHandle, false⟩ ∧
    Windows.fromChild c = Windows.fromChild ⟨c.id, c.rawHandle, true⟩ ∧
    Windows.fromChild c = Windows.fromChild ⟨c.id, c.rawHandle, false⟩ ∧
    Unix.priorityRead pre ⟨ret, some Unix.ESRCH⟩ = Unix.ReadOutcome.notFound ∧
    Unix.setPriority (-1) Unix.ESRCH = SetOutcome.unchanged (Unchanged.NotFound ⟨⟩) ∧
    Windows.priorityRead 0 = Except.error ⟨⟩ := by
  refine ⟨rfl, rfl, rfl, rfl, rfl, rfl, ?_, by decide, rfl⟩
  simp [Unix.priorityRead, Unix.ESRCH]

end Scrummage

namespace Scrummage

/-- C4 counterexample: the background-mode marker
`PROCESS_MODE_BACKGROUND_BEGIN` is a valid `Priority` on the priority-class
platform (its `to_relative` is defined, so it can arise from a read), yet
both its `higher()` and `lower()` sequences are empty, so no finite
sequence of `higher`/`lower` steps reaches `Priority::normal()` from it. -/
theorem c4_background_begin_cannot_reach_normal :
    Windows.Valid ⟨Windows.PROCESS_MODE_BACKGROUND_BEGIN⟩ ∧
    ¬ Windows.Reaches ⟨Windows.PROCESS_MODE_BACKGROUND_BEGIN⟩ Windows.Priority.normal := by
  refine ⟨by decide, ?_⟩
  intro h
  rcases Relation.ReflTransGen.cases_head h with heq | ⟨c, hstep, _⟩
  · exact absurd heq (by decide)
  · rcases hstep with hc | hc
    · rw [show Windows.Priority.higher ⟨Windows.PROCESS_MODE_BACKGROUND_BEGIN⟩
          = Windows.higherFrom Windows.PROCESS_MODE_BACKGROUND_BEGIN from rfl,
        Windows.higherFrom_bg_begin] at hc
      exact absurd hc (List.not_mem_nil c)
    · rw [show Windows.Priority.lower ⟨Windows.PROCESS_MODE_BACKGROUND_BEGIN⟩
          = Windows.lowerFrom Windows.PROCESS_MODE_BACKGROUND_BEGIN from rfl,
        Windows.lowerFrom_bg_begin] at hc
      exact absurd hc (List.not_mem_nil c)

/-- C4 (amended): `Priority::normal()` is reachable by a finite sequence
of `higher()`/`lower()` steps from every niceness value on the niceness
platform and from each of the six ordinary classes on the priority-class
platform; the two background-mode markers, which `higher`/`lower` never
produce but a read can, have empty walks and reach nothing. -/
theorem c4_normal_reachable (p : Unix.Priority) (w : Windows.Priority) :
    Unix.Reaches p Unix.Priority.normal ∧
    (w.priority ∈ Windows.ordinaryClasses →
      Windows.Reaches w Windows.Priority.normal) := by
  constructor
  · obtain ⟨n⟩ := p
    rcases lt_trichotomy n 0 with hlt | rfl | hgt
    · refine Relation.ReflTransGen.single (Or.inr (Unix.mem_lowerFrom.mpr ?_))
      constructor <;> simp [Unix.Priority.normal]
      omega
    · exact Relation.ReflTransGen.refl
    · refine Relation.ReflTransGen.single (Or.inl (Unix.mem_higherFrom.mpr ?_))
      constructor <;> simp [Unix.Priority.normal]
      omega
  · intro hw
    simp only [Windows.ordinaryClasses, List.mem_cons, List.not_mem_nil,
      or_false] at hw
    rcases hw with hw | hw | hw | hw | hw | hw
    · refine Relation.ReflTransGen.single (Or.inl ?_)
      rw [show w.higher = Windows.higherFrom w.priority from rfl, hw,
        Windows.higherFrom_idle]
      decide
    · refine Relation.ReflTransGen.single (Or.inl ?_)
      rw [show w.higher = Windows.higherFrom w.priority from rfl, hw,
        Windows.higherFrom_below]
      decide
    · have hwn : w = Windows.Priority.normal := by
        obtain ⟨a⟩ := w
        exact congrArg Windows.Priority.mk hw
      rw [hwn]
      exact Relation.ReflTransGen.refl
    · refine Relation.ReflTransGen.single (Or.inr ?_)
      rw [show w.lower = Windows.lowerFrom w.priority from rfl, hw,
        Windows.lowerFrom_above]
      decide
    · refine Relation.ReflTransGen.single (Or.inr ?_)
      rw [show w.lower = Windows.lowerFrom w.priority from rfl, hw,
        Windows.lowerFrom_high]
      decide
    · refine Relation.ReflTransGen.single (Or.inr ?_)
      rw [show w.lower = Windows.lowerFrom w.priority from rfl, hw,
        Windows.lowerFrom_realtime]
      decide

theorem c4_normal_reachable_witness :
    Unix.Reaches ⟨5⟩ Unix.Priority.normal ∧
    Windows.Reaches ⟨Windows.IDLE_PRIORITY_CLASS⟩ Windows.Priority.normal :=
  ⟨(c4_normal_reachable ⟨5⟩ ⟨Windows.IDLE_PRIORITY_CLASS⟩).1,
   (c4_normal_reachable ⟨5⟩ ⟨Windows.IDLE_PRIORITY_CLASS⟩).2 (by decide)⟩

/-- C7: walking more steps than the platform offers clamps at the end of
the sequence instead of erroring: for `n` beyond the available range, the
last of the first `n` elements of `normal().higher()` is the most-favored
priority (niceness `-20`, resp. `REALTIME_PRIORITY_CLASS`) and the last of
the first `n` elements of `normal().lower()` is the least-favored priority
(niceness `19`, resp. `IDLE_PRIORITY_CLASS`). This is exactly the
`take(n).last()` walk the CLI performs. -/
theorem c7_walks_clamp (n : Nat) :
    (20 < n → (Unix.Priority.normal.higher.take n).getLast? = some ⟨-20⟩) ∧
    (19 < n → (Unix.Priority.normal.lower.take n).getLast? = some ⟨19⟩) ∧
    (3 < n → (Windows.Priority.normal.higher.take n).getLast?
      = some ⟨Windows.REALTIME_PRIORITY_CLASS⟩) ∧
    (2 < n → (Windows.Priority.normal.lower.take n).getLast?
      = some ⟨Windows.IDLE_PRIORITY_CLASS⟩) := by
  refine ⟨?_, ?_, ?_, ?_⟩
  · intro h
    rw [show Unix.Priority.normal.higher = Unix.higherFrom 0 from rfl,
      Unix.higherFrom_zero, List.take_of_length_le (by simp; omega)]
    decide
  · intro h
    rw [show Unix.Priority.normal.lower = Unix.lowerFrom 0 from rfl,
      Unix.lowerFrom_zero, List.take_of_length_le (by simp; omega)]
    decide
  · intro h
    rw [show Windows.Priority.normal.higher
        = Windows.higherFrom Windows.NORMAL_PRIORITY_CLASS from rfl,
      Windows.higherFrom_normal, List.take_of_length_le (by simp; omega)]
    decide
  · intro h
    rw [show Windows.Priority.normal.lower
        = Windows.lowerFrom Windows.NORMAL_PRIORITY_CLASS from rfl,
      Windows.lowerFrom_normal, List.take_of_length_le (by simp; omega)]
    decide

theorem c7_walks_clamp_witness :
    (Unix.Priority.normal.higher.take 999).getLast? = some ⟨-20⟩ ∧
    (Unix.Priority.normal.lower.take 999).getLast? = some ⟨19⟩ ∧
    (Windows.Priority.normal.higher.take 999).getLast?
      = some ⟨Windows.REALTIME_PRIORITY_CLASS⟩ ∧
    (Windows.Priority.normal.lower.take 999).getLast?
      = some ⟨Windows.IDLE_PRIORITY_CLASS⟩ :=
  ⟨(c7_walks_clamp 999).1 (by norm_num),
   (c7_walks_clamp 999).2.1 (by norm_num),
   (c7_walks_clamp 999).2.2.1 (by norm_num),
   (c7_walks_clamp 999).2.2.2 (by norm_num)⟩

/-- C8: one step up then one step down returns to the start, and
symmetrically: whenever `p.higher()` yields a first element `q`,
`q.lower()` yields `p` first (for representable unix niceness, and for
every windows class), and at the extreme ends the corresponding
direction's sequence is empty. -/
theorem c8_round_trip (p : Unix.Priority) (w : Windows.Priority) :
    (p.niceness ≤ 19 → ∀ q, p.higher.head? = some q → q.lower.head? = some p) ∧
    (-20 ≤ p.niceness → ∀ q, p.lower.head? = some q → q.higher.head? = some p) ∧
    (p.niceness = -20 → p.higher = []) ∧
    (p.niceness = 19 → p.lower = []) ∧
    (∀ q, w.higher.head? = some q → q.lower.head? = some w) ∧
    (∀ q, w.lower.head? = some q → q.higher.head? = some w) ∧
    (w.priority = Windows.REALTIME_PRIORITY_CLASS → w.higher = []) ∧
    (w.priority = Windows.IDLE_PRIORITY_CLASS → w.lower = []) := by
  refine ⟨?_, ?_, ?_, ?_, ?_, ?_, ?_, ?_⟩
  · intro hle q hq
    by_cases hgt : p.niceness > -20
    · rw [show p.higher = Unix.higherFrom p.niceness from rfl,
        Unix.higherFrom_eq_cons hgt, List.head?_cons] at hq
      injection hq with hq
      subst hq
      rw [show (Unix.Priority.mk (p.niceness - 1)).lower
          = Unix.lowerFrom (p.niceness - 1) from rfl,
        Unix.lowerFrom_eq_cons (by omega), List.head?_cons,
        show p.niceness - 1 + 1 = p.niceness from by omega]
    · rw [show p.higher = Unix.higherFrom p.niceness from rfl,
        Unix.higherFrom_eq_nil hgt] at hq
      exact Option.noConfusion hq
  · intro hle q hq
    by_cases hlt : p.niceness < 19
    · rw [show p.lower = Unix.lowerFrom p.niceness from rfl,
        Unix.lowerFrom_eq_cons hlt, List.head?_cons] at hq
      injection hq with hq
      subst hq
      rw [show (Unix.Priority.mk (p.niceness + 1)).higher
          = Unix.higherFrom (p.niceness + 1) from rfl,
        Unix.higherFrom_eq_cons (by omega), List.head?_cons,
        show p.niceness + 1 - 1 = p.niceness from by omega]
    · rw [show p.lower = Unix.lowerFrom p.niceness from rfl,
        Unix.lowerFrom_eq_nil hlt] at hq
      exact Option.noConfusion hq
  · intro h
    rw [show p.higher = Unix.higherFrom p.niceness from rfl, h,
      Unix.higherFrom_eq_nil (by norm_num)]
  · intro h
    rw [show p.lower = Unix.lowerFrom p.niceness from rfl, h,
      Unix.lowerFrom_eq_nil (by norm_num)]
  · intro q hq
    cases hh : Windows.higherNext w.priority with
    | none =>
      rw [show w.higher = Windows.higherFrom w.priority from rfl,
        Windows.higherFrom_eq_nilW hh] at hq
      exact Option.noConfusion hq
    | some m =>
      rw [show w.higher = Windows.higherFrom w.priority from rfl,
        Windows.higherFrom_head hh] at hq
      injection hq with hq
      subst hq
      rw [show (Windows.Priority.mk m).lower = Windows.lowerFrom m from rfl,
        Windows.lowerFrom_head (Windows.lowerNext_higherNext hh)]
  · intro q hq
    cases hh : Windows.lowerNext w.priority with
    | none =>
      rw [show w.lower = Windows.lowerFrom w.priority from rfl,
        Windows.lowerFrom_eq_nilW hh] at hq
      exact Option.noConfusion hq
    | some m =>
      rw [show w.lower = Windows.lowerFrom w.priority from rfl,
        Windows.lowerFrom_head hh] at hq
      injection hq with hq
      subst hq
      rw [show (Windows.Priority.mk m).higher = Windows.higherFrom m from rfl,
        Windows.higherFrom_head (Windows.higherNext_lowerNext hh)]
  · intro h
    rw [show w.higher = Windows.higherFrom w.priority from rfl, h]
    exact Windows.higherFrom_realtime
  · intro h
    rw [show w.lower = Windows.lowerFrom w.priority from rfl, h]
    exact Windows.lowerFrom_idle

theorem c8_round_trip_witness :
    (Unix.Priority.mk (-1)).lower.head? = some ⟨0⟩ ∧
    (Unix.Priority.mk 1).higher.head? = some ⟨0⟩ ∧
    (Unix.Priority.mk (-20)).higher = [] ∧
    (Unix.Priority.mk 19).lower = [] ∧
    (Windows.Priority.mk Windows.ABOVE_NORMAL_PRIORITY_CLASS).lower.head?
      = some ⟨Windows.NORMAL_PRIORITY_CLASS⟩ ∧
    (Windows.Priority.mk Windows.REALTIME_PRIORITY_CLASS).higher = [] :=
  ⟨(c8_round_trip ⟨0⟩ ⟨Windows.NORMAL_PRIORITY_CLASS⟩).1 (by decide) ⟨-1⟩
     (by rw [show (Unix.Priority.mk 0).higher = Unix.higherFrom 0 from rfl,
           Unix.higherFrom_zero]
         decide),
   (c8_round_trip ⟨0⟩ ⟨Windows.NORMAL_PRIORITY_CLASS⟩).2.1 (by decide) ⟨1⟩
     (by rw [show (Unix.Priority.mk 0).lower = Unix.lowerFrom 0 from rfl,
           Unix.lowerFrom_zero]
         decide),
   (c8_round_trip ⟨-20⟩ ⟨Windows.NORMAL_PRIORITY_CLASS⟩).2.2.1 rfl,
   (c8_round_trip ⟨19⟩ ⟨Windows.NORMAL_PRIORITY_CLASS⟩).2.2.2.1 rfl,
   (c8_round_trip ⟨0⟩ ⟨Windows.NORMAL_PRIORITY_CLASS⟩).2.2.2.2.1
     ⟨Windows.ABOVE_NORMAL_PRIORITY_CLASS⟩
     (by rw [show (Windows.Priority.mk Windows.NORMAL_PRIORITY_CLASS).higher
           = Windows.higherFrom Windows.NORMAL_PRIORITY_CLASS from rfl,
         Windows.higherFrom_normal]
         decide),
   (c8_round_trip ⟨0⟩ ⟨Windows.REALTIME_PRIORITY_CLASS⟩).2.2.2.2.2.2.1 rfl⟩

/-- C9: the walks never leave the platform's representable set. On the
niceness platform `normal()` is in `[-20, 19]` and, from any start inside
the bounds, every value `higher()`/`lower()` produces stays inside the
bounds (no wrap-around past either end). On the priority-class platform
every produced value is one of the six ordinary classes — whatever the
start — so in particular the background-mode markers are never produced,
only recognized on read. -/
theorem c9_values_stay_in_range (p q : Unix.Priority) (w v : Windows.Priority) :
    (-20 ≤ Unix.Priority.normal.niceness ∧ Unix.Priority.normal.niceness ≤ 19) ∧
    (-20 ≤ p.niceness → p.niceness ≤ 19 → q ∈ p.higher ∨ q ∈ p.lower →
      -20 ≤ q.niceness ∧ q.niceness ≤ 19) ∧
    Windows.Priority.normal.priority ∈ Windows.ordinaryClasses ∧
    (v ∈ w.higher ∨ v ∈ w.lower → v.priority ∈ Windows.ordinaryClasses) ∧
    (v ∈ w.higher ∨ v ∈ w.lower →
      v.priority ≠ Windows.PROCESS_MODE_BACKGROUND_BEGIN ∧
      v.priority ≠ Windows.PROCESS_MODE_BACKGROUND_END) := by
  have hmemW : v ∈ w.higher ∨ v ∈ w.lower → v.priority ∈ Windows.ordinaryClasses := by
    rintro (hv | hv)
    · exact Windows.mem_higherFromW hv
    · exact Windows.mem_lowerFromW hv
  refine ⟨by decide, ?_, by decide, hmemW, ?_⟩
  · rintro h1 h2 (hq | hq)
    · have := Unix.mem_higherFrom.mp hq
      omega
    · have := Unix.mem_lowerFrom.mp hq
      omega
  · intro hv
    have hm := hmemW hv
    simp only [Windows.ordinaryClasses, List.mem_cons, List.not_mem_nil,
      or_false] at hm
    rcases hm with hm | hm | hm | hm | hm | hm <;> rw [hm] <;> decide

theorem c9_values_stay_in_range_witness :
    (-20 ≤ (Unix.Priority.mk (-1)).niceness ∧ (Unix.Priority.mk (-1)).niceness ≤ 19) ∧
    (Windows.Priority.mk Windows.ABOVE_NORMAL_PRIORITY_CLASS).priority
      ∈ Windows.ordinaryClasses := by
  have hu : (⟨-1⟩ : Unix.Priority) ∈ (Unix.Priority.mk 0).higher := by
    rw [show (Unix.Priority.mk 0).higher = Unix.higherFrom 0 from rfl,
      Unix.higherFrom_zero]
    decide
  have hw : (⟨Windows.ABOVE_NORMAL_PRIORITY_CLASS⟩ : Windows.Priority)
      ∈ (Windows.Priority.mk Windows.NORMAL_PRIORITY_CLASS).higher := by
    rw [show (Windows.Priority.mk Windows.NORMAL_PRIORITY_CLASS).higher
        = Windows.higherFrom Windows.NORMAL_PRIORITY_CLASS from rfl,
      Windows.higherFrom_normal]
    decide
  have h := c9_values_stay_in_range ⟨0⟩ ⟨-1⟩ ⟨Windows.NORMAL_PRIORITY_CLASS⟩
    ⟨Windows.ABOVE_NORMAL_PRIORITY_CLASS⟩
  exact ⟨h.2.1 (by decide) (by decide) (Or.inl hu), h.2.2.2.1 (Or.inl hw)⟩

end Scrummage
